import Mathlib

/-!
Shallow embedding of `bpl_lib/transactions/Transaction.py` (DuneRoot/BPL-python).

The repository's only source file under `src/` is `Transaction.py`; its
collaborators (`bpl_lib.helpers.Util`, `bpl_lib.crypto`, the `base58`
library, `bpl_lib.time.Slot`) are not in `src/` and are modelled from the
specification where a claim depends on them.  Bytes are `Nat` values below
256, byte strings are `List Nat`, Python `None` is `Option.none`, and a
Python function that can raise is embedded as `Except TxError`.
-/

set_option maxRecDepth 1000000

/-- Error taxonomy of the specification (§7): decode failures, the missing
fee error, and the `ValueError` Python raises for `bytes(n)` with `n < 0`. -/
inductive TxError
  | malformedHex
  | invalidAddress
  | missingFee
  | valueError
deriving DecidableEq, Repr

deriving instance DecidableEq for Except

/-- Little-endian encoding of `n` on `w` bytes (truncating), as produced by
the byte buffer's fixed-width integer writes. -/
def toLE (n : Nat) : Nat → List Nat
  | 0 => []
  | w + 1 => (n % 256) :: toLE (n / 256) w

/-- Big-endian encoding of `n` on `w` bytes (truncating); used by the
SHA-256 length padding. -/
def toBE (n : Nat) : Nat → List Nat
  | 0 => []
  | w + 1 => (n / 256 ^ w % 256) :: toBE n w

/-- Reduction modulo 2^32, the word size of SHA-256. -/
def w32 (x : Nat) : Nat := x % 4294967296

/-- Right rotation of a 32-bit word by `n` places. -/
def rotr32 (x n : Nat) : Nat := w32 ((x >>> n) ||| (x <<< (32 - n)))

/-- SHA-256 big sigma-0 function. -/
def bsig0 (x : Nat) : Nat := rotr32 x 2 ^^^ rotr32 x 13 ^^^ rotr32 x 22

/-- SHA-256 big sigma-1 function. -/
def bsig1 (x : Nat) : Nat := rotr32 x 6 ^^^ rotr32 x 11 ^^^ rotr32 x 25

/-- SHA-256 small sigma-0 function. -/
def ssig0 (x : Nat) : Nat := rotr32 x 7 ^^^ rotr32 x 18 ^^^ (x >>> 3)

/-- SHA-256 small sigma-1 function. -/
def ssig1 (x : Nat) : Nat := rotr32 x 17 ^^^ rotr32 x 19 ^^^ (x >>> 10)

/-- SHA-256 choice function. -/
def chf (x y z : Nat) : Nat := (x &&& y) ^^^ ((x ^^^ 4294967295) &&& z)

/-- SHA-256 majority function. -/
def majf (x y z : Nat) : Nat := (x &&& y) ^^^ (x &&& z) ^^^ (y &&& z)

/-- Round constants of SHA-256 (FIPS 180-4). -/
def sha256K : List Nat :=
  [1116352408, 1899447441, 3049323471, 3921009573, 961987163,
   1508970993, 2453635748, 2870763221, 3624381080, 310598401,
   607225278, 1426881987, 1925078388, 2162078206, 2614888103,
   3248222580, 3835390401, 4022224774, 264347078, 604807628,
   770255983, 1249150122, 1555081692, 1996064986, 2554220882,
   2821834349, 2952996808, 3210313671, 3336571891, 3584528711,
   113926993, 338241895, 666307205, 773529912, 1294757372,
   1396182291, 1695183700, 1986661051, 2177026350, 2456956037,
   2730485921, 2820302411, 3259730800, 3345764771, 3516065817,
   3600352804, 4094571909, 275423344, 430227734, 506948616,
   659060556, 883997877, 958139571, 1322822218, 1537002063,
   1747873779, 1955562222, 2024104815, 2227730452, 2361852424,
   2428436474, 2756734187, 3204031479, 3329325298]

/-- Initial hash state of SHA-256 (FIPS 180-4). -/
def sha256H0 : List Nat :=
  [1779033703, 3144134277, 1013904242, 2773480762,
   1359893119, 2600822924, 528734635, 1541459225]

/-- Group a byte list into big-endian 32-bit words. -/
def bytesToWords : List Nat → List Nat
  | b0 :: b1 :: b2 :: b3 :: rest =>
      (b0 * 16777216 + b1 * 65536 + b2 * 256 + b3) :: bytesToWords rest
  | _ => []

/-- Extend the 16-word message schedule by `n` further words. -/
def sha256Extend : List Nat → Nat → List Nat
  | w, 0 => w
  | w, n + 1 =>
      let l := w.length
      let x := w32 (ssig1 (w.getD (l - 2) 0) + w.getD (l - 7) 0 +
                    ssig0 (w.getD (l - 15) 0) + w.getD (l - 16) 0)
      sha256Extend (w ++ [x]) n

/-- The 64 compression rounds of SHA-256 over one block's schedule. -/
def sha256Rounds : List Nat → List Nat →
    Nat × Nat × Nat × Nat × Nat × Nat × Nat × Nat →
    Nat × Nat × Nat × Nat × Nat × Nat × Nat × Nat
  | k :: ks, w :: ws, (a, b, c, d, e, f, g, h) =>
      let t1 := w32 (h + bsig1 e + chf e f g + k + w)
      let t2 := w32 (bsig0 a + majf a b c)
      sha256Rounds ks ws (w32 (t1 + t2), a, b, c, w32 (d + t1), e, f, g)
  | _, _, st => st

/-- Compression of one 64-byte block into the running hash state. -/
def sha256Compress (hs : List Nat) (block : List Nat) : List Nat :=
  let w := sha256Extend (bytesToWords block) 48
  let a := hs.getD 0 0
  let b := hs.getD 1 0
  let c := hs.getD 2 0
  let d := hs.getD 3 0
  let e := hs.getD 4 0
  let f := hs.getD 5 0
  let g := hs.getD 6 0
  let h := hs.getD 7 0
  let (a', b', c', d', e', f', g', h') := sha256Rounds sha256K w (a, b, c, d, e, f, g, h)
  [w32 (a + a'), w32 (b + b'), w32 (c + c'), w32 (d + d'),
   w32 (e + e'), w32 (f + f'), w32 (g + g'), w32 (h + h')]

/-- Process `n` 64-byte blocks of the padded message. -/
def sha256Loop : Nat → List Nat → List Nat → List Nat
  | 0, hs, _ => hs
  | n + 1, hs, msg => sha256Loop n (sha256Compress hs (msg.take 64)) (msg.drop 64)

/-- Merkle–Damgård padding of SHA-256: a 0x80 byte, zeros to 56 mod 64, and
the bit length on 8 big-endian bytes. -/
def sha256Pad (msg : List Nat) : List Nat :=
  msg ++ 0x80 :: List.replicate ((119 - msg.length % 64) % 64) 0 ++ toBE (8 * msg.length) 8

/-- Modelled from the spec: the SHA-256 hash primitive
(`bpl_lib.crypto.Crypto.sha256`, not under `src/`); §6 of the specification
gives its contract as `sha256(bytes) -> 32 raw bytes`.  This is the standard
FIPS 180-4 SHA-256 over byte lists. -/
def sha256 (msg : List Nat) : List Nat :=
  let padded := sha256Pad msg
  (sha256Loop (padded.length / 64) sha256H0 padded).foldr (fun h acc => toBE h 4 ++ acc) []

/-- Lower-case hexadecimal digit for a value below 16. -/
def hexDigit (n : Nat) : Char := if n < 10 then Char.ofNat (48 + n) else Char.ofNat (87 + n)

/-- Modelled from the spec: `hexlify` of `bpl_lib.helpers.Util` (not under
`src/`), the byte-list-to-lower-case-hex-string encoder used for hash digests
and signatures. -/
def hexlify (bs : List Nat) : String :=
  String.mk (bs.foldr (fun b acc => hexDigit (b / 16) :: hexDigit (b % 16) :: acc) [])

/-- Value of one hexadecimal digit character, if it is one. -/
def hexVal (c : Char) : Option Nat :=
  if 48 ≤ c.toNat ∧ c.toNat ≤ 57 then some (c.toNat - 48)
  else if 97 ≤ c.toNat ∧ c.toNat ≤ 102 then some (c.toNat - 87)
  else if 65 ≤ c.toNat ∧ c.toNat ≤ 70 then some (c.toNat - 55)
  else none

/-- Decode a list of hex digit characters, two per byte. -/
def unhexBytes : List Char → Option (List Nat)
  | [] => some []
  | c1 :: c2 :: rest =>
      match hexVal c1, hexVal c2, unhexBytes rest with
      | some hi, some lo, some tail => some ((hi * 16 + lo) :: tail)
      | _, _, _ => none
  | [_] => none

/-- Modelled from the spec: `unhexlify` of `bpl_lib.helpers.Util` (not under
`src/`); §4.1: hex-decoding a field fails with a malformed-hex error on
invalid input. -/
def unhexlify (s : String) : Except TxError (List Nat) :=
  match unhexBytes s.data with
  | some bs => .ok bs
  | none => .error .malformedHex

/-- The base58 digit alphabet, in order of value. -/
def b58Alphabet : List Char :=
  "123456789ABCDEFGHJKLMNPQRSTUVWXYZabcdefghijkmnopqrstuvwxyz".data

/-- Index of a character in a character list, if present. -/
def charIndex : List Char → Char → Option Nat
  | [], _ => none
  | a :: rest, c => if a = c then some 0 else (charIndex rest c).map (· + 1)

/-- Base58 digits to a natural number, with an accumulator. -/
def b58DecodeNum : List Char → Nat → Option Nat
  | [], acc => some acc
  | c :: rest, acc =>
      match charIndex b58Alphabet c with
      | some v => b58DecodeNum rest (acc * 58 + v)
      | none => none

/-- Number of leading `1` characters of a base58 string (leading zero bytes). -/
def b58LeadingOnes : List Char → Nat
  | '1' :: rest => b58LeadingOnes rest + 1
  | _ => 0

/-- Minimal big-endian byte representation of a natural number. -/
def natBytesBE (n : Nat) : List Nat := toBE n (if n = 0 then 0 else Nat.log 256 n + 1)

/-- Modelled from the spec: `base58.b58decode_check` of the external `base58`
library; §4.1/§6: decode the base58-with-checksum string to its raw form,
failing on a bad checksum or malformed input.  The four trailing checksum
bytes are the start of the double SHA-256 of the payload. -/
def b58decode_check (s : String) : Except TxError (List Nat) :=
  match b58DecodeNum s.data 0 with
  | none => .error .invalidAddress
  | some n =>
      let raw := List.replicate (b58LeadingOnes s.data) 0 ++ natBytesBE n
      if raw.length < 4 then .error .invalidAddress
      else if (sha256 (sha256 (raw.take (raw.length - 4)))).take 4 = raw.drop (raw.length - 4)
      then .ok (raw.take (raw.length - 4))
      else .error .invalidAddress

/-- Python truthiness of an optional string attribute: `None` and the empty
string are falsy, as in the `if self._x:` tests of `Transaction.py`. -/
def pyTruthyS : Option String → Bool
  | Option.none => false
  | Option.some s => !(s == "")

/-- Python `bytes(n)`: `n` zero bytes, a `ValueError` when `n` is negative
(the case reached by `bytes(64 - len(vendor_field))` for an over-long
vendor field). -/
def pyBytes (n : Int) : Except TxError (List Nat) :=
  if n < 0 then .error .valueError else .ok (List.replicate n.toNat 0)

/-- Modelled from the spec: the append-only Byte Buffer collaborator
(`bpl_lib.helpers.Util.Buffer`, not under `src/`); §2 of the specification:
a growable byte writer with fixed-width integer, raw-byte, and single-byte
writes and a final conversion to an immutable byte sequence. -/
structure Buffer where
  data : List Nat
deriving DecidableEq, Repr

/-- Write one byte. -/
def Buffer.write_byte (b : Buffer) (v : Nat) : Buffer := ⟨b.data ++ [v % 256]⟩

/-- Write a 4-byte little-endian unsigned integer (§4.1, timestamp). -/
def Buffer.write_int (b : Buffer) (v : Nat) : Buffer := ⟨b.data ++ toLE v 4⟩

/-- Write an 8-byte little-endian unsigned integer (§4.1, amount and fee);
a null value raises `MissingFeeError` per §4.1/§8 — modelled from the spec,
as the buffer implementation is not under `src/`. -/
def Buffer.write_long (b : Buffer) : Option Nat → Except TxError Buffer
  | Option.some v => .ok ⟨b.data ++ toLE v 8⟩
  | Option.none => .error .missingFee

/-- Append raw bytes. -/
def Buffer.write_bytes (b : Buffer) (bs : List Nat) : Buffer := ⟨b.data ++ bs⟩

/-- Final conversion to the immutable byte sequence. -/
def Buffer.to_bytes (b : Buffer) : List Nat := b.data

/-- The transaction record of `Transaction.py.__init__`: field names follow
the source attributes (`_sign_signature` is the attribute the specification
calls `secondSignature`). -/
structure Transaction where
  id : Option String
  type : Nat
  recipient_id : Option String
  amount : Nat
  fee : Option Nat
  asset : List (String × String)
  vendor_field : Option String
  timestamp : Nat
  requester_public_key : Option String
  sender_public_key : String
  signature : Option String
  sign_signature : Option String
deriving DecidableEq, Repr

/-- Constructor `Transaction.__init__`: the external time source and key
derivation collaborators (`bpl_lib.time.Slot.get_time`,
`bpl_lib.crypto.Keys`, not under `src/`) are passed as parameters. -/
def Transaction.init (get_public_key : String → String) (get_time : Nat)
    (type : Nat) (secret : String) : Transaction :=
  { id := none
    type := type
    recipient_id := none
    amount := 0
    fee := none
    asset := []
    vendor_field := none
    timestamp := get_time
    requester_public_key := none
    sender_public_key := get_public_key secret
    signature := none
    sign_signature := none }

/-- Requester-public-key block of `Transaction._to_bytes`: written (hex
decoded) only when the attribute is truthy, nothing otherwise. -/
def Transaction.requester_step (t : Transaction) (buffer : Buffer) : Except TxError Buffer :=
  if pyTruthyS t.requester_public_key then
    (unhexlify (t.requester_public_key.getD "")).map buffer.write_bytes
  else pure buffer

/-- Recipient block of `Transaction._to_bytes`:
`base58.b58decode_check(self._recipient_id) if self._recipient_id else bytes(21)`. -/
def Transaction.recipient_step (t : Transaction) (buffer : Buffer) : Except TxError Buffer :=
  if pyTruthyS t.recipient_id then
    (b58decode_check (t.recipient_id.getD "")).map buffer.write_bytes
  else pure (buffer.write_bytes (List.replicate 21 0))

/-- Vendor-field block of `Transaction._to_bytes`: when truthy,
`vendor_field + bytes(64 - len(vendor_field))` (hex decoded, right-padded —
`bytes` of a negative count raising `ValueError`), otherwise `bytes(64)`. -/
def Transaction.vendor_step (t : Transaction) (buffer : Buffer) : Except TxError Buffer :=
  if pyTruthyS t.vendor_field then do
    let vendor_field ← unhexlify (t.vendor_field.getD "")
    let pad ← pyBytes (64 - (vendor_field.length : Int))
    pure (buffer.write_bytes (vendor_field ++ pad))
  else pure (buffer.write_bytes (List.replicate 64 0))

/-- Lines of `Transaction._to_bytes` up to and including the
`_handle_transaction_type` call, with the three optional-field blocks as the
step functions above; the abstract `_handle_transaction_type` hook (which
the base class leaves unimplemented) is the parameter
`handle_transaction_type`. -/
def Transaction.to_bytes_pre (handle_transaction_type : Buffer → Except TxError Buffer)
    (t : Transaction) : Except TxError Buffer := do
  let buffer : Buffer := ⟨[]⟩
  let buffer := buffer.write_byte t.type
  let buffer := buffer.write_int t.timestamp
  let spk ← unhexlify t.sender_public_key
  let buffer := buffer.write_bytes spk
  let buffer ← t.requester_step buffer
  let buffer ← t.recipient_step buffer
  let buffer ← t.vendor_step buffer
  let buffer ← buffer.write_long (some t.amount)
  let buffer ← buffer.write_long t.fee
  handle_transaction_type buffer

/-- Method `Transaction._handle_signature`: appends each signature to the
buffer only when it is not being skipped and has been set. -/
def Transaction.handle_signature (t : Transaction) (buffer : Buffer)
    (skip_signature skip_second_signature : Bool) : Except TxError Buffer := do
  let buffer ←
    if !skip_signature && pyTruthyS t.signature then
      (unhexlify (t.signature.getD "")).map buffer.write_bytes
    else pure buffer
  if !skip_second_signature && pyTruthyS t.sign_signature then
    (unhexlify (t.sign_signature.getD "")).map buffer.write_bytes
  else pure buffer

/-- Method `Transaction._to_bytes(skip_signature, skip_second_signature)`:
the field pipeline, then the signature handling, then the buffer's final
byte sequence. -/
def Transaction.to_bytes (handle_transaction_type : Buffer → Except TxError Buffer)
    (t : Transaction) (skip_signature skip_second_signature : Bool) :
    Except TxError (List Nat) := do
  let buffer ← t.to_bytes_pre handle_transaction_type
  let buffer ← t.handle_signature buffer skip_signature skip_second_signature
  pure buffer.to_bytes

/-- Method `Transaction._get_id`:
`hexlify(sha256(self._to_bytes(False, False)))`. -/
def Transaction.get_id (handle_transaction_type : Buffer → Except TxError Buffer)
    (t : Transaction) : Except TxError String :=
  (t.to_bytes handle_transaction_type false false).map (fun bs => hexlify (sha256 bs))

/-- Method `Transaction._get_hash(skip_signature, skip_second_signature)`:
`sha256(self._to_bytes(skip_signature, skip_second_signature))`. -/
def Transaction.get_hash (handle_transaction_type : Buffer → Except TxError Buffer)
    (t : Transaction) (skip_signature skip_second_signature : Bool) :
    Except TxError (List Nat) :=
  (t.to_bytes handle_transaction_type skip_signature skip_second_signature).map sha256

/-- Values appearing in the dictionary of `Transaction.to_dict`. -/
inductive PyValue
  | none
  | int (n : Nat)
  | str (s : String)
  | dict (d : List (String × String))
deriving DecidableEq, Repr

/-- Python value of an optional integer attribute. -/
def PyValue.ofOptNat : Option Nat → PyValue
  | Option.none => .none
  | Option.some v => .int v

/-- Python value of an optional string attribute. -/
def PyValue.ofOptStr : Option String → PyValue
  | Option.none => .none
  | Option.some s => .str s

/-- Method `Transaction.to_dict`, with the literal dictionary keys of the
source (note `"venderField"` and `"signSignature"`). -/
def Transaction.to_dict (t : Transaction) : List (String × PyValue) :=
  [("type", .int t.type),
   ("amount", .int t.amount),
   ("fee", PyValue.ofOptNat t.fee),
   ("asset", .dict t.asset),
   ("id", PyValue.ofOptStr t.id),
   ("recipientId", PyValue.ofOptStr t.recipient_id),
   ("venderField", PyValue.ofOptStr t.vendor_field),
   ("timestamp", .int t.timestamp),
   ("senderPublicKey", .str t.sender_public_key),
   ("signature", PyValue.ofOptStr t.signature),
   ("signSignature", PyValue.ofOptStr t.sign_signature)]

/-- Method `Transaction._sign(secret)`: the external signing primitive
(`bpl_lib.crypto.Signature`, not under `src/`; §6 of the specification,
`sign(keypair, hash_bytes) -> hex signature string`) is the parameter
`sign_prim`.  The hash is `self._get_hash()` with the source's default
skip flags, i.e. `(True, True)`. -/
def Transaction.sign (sign_prim : String → List Nat → String)
    (handle_transaction_type : Buffer → Except TxError Buffer)
    (t : Transaction) (secret : String) : Except TxError Transaction :=
  (t.get_hash handle_transaction_type true true).map
    (fun h => { t with signature := some (sign_prim secret h) })

/-- Method `Transaction._second_sign(secret)`: signs
`self._get_hash(False, True)` and stores into `self._sign_signature`. -/
def Transaction.second_sign (sign_prim : String → List Nat → String)
    (handle_transaction_type : Buffer → Except TxError Buffer)
    (t : Transaction) (secret : String) : Except TxError Transaction :=
  (t.get_hash handle_transaction_type false true).map
    (fun h => { t with sign_signature := some (sign_prim secret h) })

/-- Method `Transaction.verify`: calls the external
`Signature.verify(self._sender_public_key, self._get_hash(False, True),
self._signature)` and, having no `return` statement, evaluates to Python
`None` (here `Option.none`) rather than the primitive's boolean. -/
def Transaction.verify (verify_prim : String → List Nat → Option String → Bool)
    (handle_transaction_type : Buffer → Except TxError Buffer)
    (t : Transaction) : Except TxError (Option Bool) :=
  (t.get_hash handle_transaction_type false true).map
    (fun h =>
      let _ := verify_prim t.sender_public_key h t.signature
      Option.none)

/-- The argument triple `Transaction.verify` passes to the external
`Signature.verify`: the sender public key, `self._get_hash(False, True)`,
and the stored first signature. -/
def Transaction.verify_args (handle_transaction_type : Buffer → Except TxError Buffer)
    (t : Transaction) : Except TxError (String × List Nat × Option String) :=
  (t.get_hash handle_transaction_type false true).map
    (fun h => (t.sender_public_key, h, t.signature))

/-- Method `Transaction.second_verify`: calls the external
`Signature.verify(self._sender_public_key, self._get_hash(False, False),
self._sign_signature)` and, having no `return` statement, evaluates to
Python `None`. -/
def Transaction.second_verify (verify_prim : String → List Nat → Option String → Bool)
    (handle_transaction_type : Buffer → Except TxError Buffer)
    (t : Transaction) : Except TxError (Option Bool) :=
  (t.get_hash handle_transaction_type false false).map
    (fun h =>
      let _ := verify_prim t.sender_public_key h t.sign_signature
      Option.none)

/-- The argument triple `Transaction.second_verify` passes to the external
`Signature.verify`: the sender public key, `self._get_hash(False, False)`,
and the stored second signature. -/
def Transaction.second_verify_args (handle_transaction_type : Buffer → Except TxError Buffer)
    (t : Transaction) : Except TxError (String × List Nat × Option String) :=
  (t.get_hash handle_transaction_type false false).map
    (fun h => (t.sender_public_key, h, t.sign_signature))

/-- The identity type-extension hook: a transaction kind that appends zero
asset bytes (`encode_asset` returning the buffer unchanged). -/
def hookId : Buffer → Except TxError Buffer := Except.ok

/-- A 33-byte compressed-public-key hex string used by the concrete
scenario transactions. -/
def spkHex : String := "030000000000000000000000000000000000000000000000000000000000000000"

/-- The scenario transaction of §8 of the specification: type 0, timestamp
10000000, amount 100000000, fee 10000000, no optional fields, unsigned. -/
def sampleTx : Transaction :=
  { id := none
    type := 0
    recipient_id := none
    amount := 100000000
    fee := some 10000000
    asset := []
    vendor_field := none
    timestamp := 10000000
    requester_public_key := none
    sender_public_key := spkHex
    signature := none
    sign_signature := none }

/-- The 139-byte fully-unsigned canonical encoding of `sampleTx`. -/
def sampleUnsigned : List Nat :=
  [0] ++ toLE 10000000 4 ++ (3 :: List.replicate 32 0) ++ List.replicate 21 0 ++
    List.replicate 64 0 ++ toLE 100000000 8 ++ toLE 10000000 8

/-- The scenario transaction with a stored first signature `aabb`. -/
def sampleSigned : Transaction := { sampleTx with signature := some "aabb" }

/-- The scenario transaction with stored first signature `aabb` and second
signature `ccdd`. -/
def sampleDoubly : Transaction :=
  { sampleTx with signature := some "aabb", sign_signature := some "ccdd" }

/-- The scenario transaction with its fee unset and a non-hex vendor field. -/
def sampleFeeNoneBadVendor : Transaction :=
  { sampleTx with fee := none, vendor_field := some "zz" }

/-- The scenario transaction with its fee unset. -/
def sampleFeeNone : Transaction := { sampleTx with fee := none }

/-- The scenario transaction with a 3-byte vendor field `aabbcc`. -/
def sampleVendor : Transaction := { sampleTx with vendor_field := some "aabbcc" }

/-- The scenario transaction with a 65-byte vendor field (130 hex digits),
over the 64-byte limit. -/
def sampleVendorLong : Transaction :=
  { sampleTx with vendor_field := some (String.mk (List.replicate 130 'a')) }

/-!
General lemmas about the embedded operations, shared by the claim theorems
below.
-/

lemma ok_bind {ε α β : Type} (a : α) (f : α → Except ε β) :
    (Except.ok a : Except ε α) >>= f = f a := rfl

lemma ok_bind' {ε α β : Type} (a : α) (f : α → Except ε β) :
    Bind.bind (Except.ok a : Except ε α) f = f a := rfl

lemma error_bind' {ε α β : Type} (e : ε) (f : α → Except ε β) :
    Bind.bind (Except.error e : Except ε α) f = .error e := rfl

lemma error_bind {ε α β : Type} (e : ε) (f : α → Except ε β) :
    (Except.error e : Except ε α) >>= f = .error e := rfl

lemma pure_eq_ok {ε α : Type} (a : α) : (pure a : Except ε α) = .ok a := rfl

lemma ok_map {ε α β : Type} (f : α → β) (a : α) :
    (Except.ok a : Except ε α).map f = .ok (f a) := rfl

lemma error_map {ε α β : Type} (f : α → β) (e : ε) :
    (Except.error e : Except ε α).map f = .error e := rfl

lemma pyTruthyS_some (s : String) (h : s ≠ "") : pyTruthyS (some s) = true := by
  simp [pyTruthyS, h]

-- `_handle_signature` under the four flag/field configurations
lemma handle_signature_skip (t : Transaction) (buf : Buffer) (sk ssk : Bool)
    (h1 : pyTruthyS t.signature = false) (h2 : pyTruthyS t.sign_signature = false) :
    t.handle_signature buf sk ssk = .ok buf := by
  unfold Transaction.handle_signature
  simp [h1, h2, pure_eq_ok, ok_bind', error_bind']

lemma handle_signature_true_true (t : Transaction) (buf : Buffer) :
    t.handle_signature buf true true = .ok buf := by
  unfold Transaction.handle_signature
  simp [pure_eq_ok, ok_bind', error_bind']

lemma handle_signature_false_true (t : Transaction) (buf : Buffer) (s : String) (bs : List Nat)
    (hs : t.signature = some s) (hs' : s ≠ "") (hdec : unhexlify s = .ok bs) :
    t.handle_signature buf false true = .ok (buf.write_bytes bs) := by
  unfold Transaction.handle_signature
  simp [hs, hs', hdec, pyTruthyS, ok_bind, ok_map, pure_eq_ok, ok_bind', error_bind']

lemma handle_signature_false_false_both (t : Transaction) (buf : Buffer)
    (s ss : String) (bs bss : List Nat)
    (hs : t.signature = some s) (hs' : s ≠ "") (hdec : unhexlify s = .ok bs)
    (hss : t.sign_signature = some ss) (hss' : ss ≠ "") (hdecs : unhexlify ss = .ok bss) :
    t.handle_signature buf false false = .ok ((buf.write_bytes bs).write_bytes bss) := by
  unfold Transaction.handle_signature
  simp [hs, hs', hdec, hss, hss', hdecs, pyTruthyS, ok_bind, ok_map, pure_eq_ok, ok_bind',
        error_bind']

-- `_to_bytes` as the skipped encoding plus appended signature sections
lemma to_bytes_of_unsigned (hook : Buffer → Except TxError Buffer) (t : Transaction)
    (sk ssk : Bool)
    (h1 : pyTruthyS t.signature = false) (h2 : pyTruthyS t.sign_signature = false) :
    t.to_bytes hook sk ssk = t.to_bytes hook true true := by
  unfold Transaction.to_bytes
  cases hpre : t.to_bytes_pre hook with
  | error e => simp [error_bind, error_bind']
  | ok buf =>
      simp [ok_bind, ok_bind', handle_signature_skip t buf _ _ h1 h2, handle_signature_true_true]

lemma to_bytes_false_true_sig (hook : Buffer → Except TxError Buffer) (t : Transaction)
    (s : String) (bs : List Nat)
    (hs : t.signature = some s) (hs' : s ≠ "") (hdec : unhexlify s = .ok bs) :
    t.to_bytes hook false true = (t.to_bytes hook true true).map (fun u => u ++ bs) := by
  unfold Transaction.to_bytes
  cases hpre : t.to_bytes_pre hook with
  | error e => simp [error_bind, error_bind', error_map]
  | ok buf =>
      simp [ok_bind, ok_bind', handle_signature_false_true t buf s bs hs hs' hdec,
            handle_signature_true_true, pure_eq_ok, ok_map, Buffer.write_bytes, Buffer.to_bytes]

lemma to_bytes_false_false_both (hook : Buffer → Except TxError Buffer) (t : Transaction)
    (s ss : String) (bs bss : List Nat)
    (hs : t.signature = some s) (hs' : s ≠ "") (hdec : unhexlify s = .ok bs)
    (hss : t.sign_signature = some ss) (hss' : ss ≠ "") (hdecs : unhexlify ss = .ok bss) :
    t.to_bytes hook false false = (t.to_bytes hook true true).map (fun u => u ++ bs ++ bss) := by
  unfold Transaction.to_bytes
  cases hpre : t.to_bytes_pre hook with
  | error e => simp [error_bind, error_bind', error_map]
  | ok buf =>
      simp [ok_bind, ok_bind',
            handle_signature_false_false_both t buf s ss bs bss hs hs' hdec hss hss' hdecs,
            handle_signature_true_true, pure_eq_ok, ok_map, Buffer.write_bytes, Buffer.to_bytes,
            List.append_assoc]

-- the optional-field blocks of `_to_bytes`
lemma requester_step_absent (t : Transaction) (buf : Buffer)
    (h : pyTruthyS t.requester_public_key = false) :
    t.requester_step buf = .ok buf := by
  unfold Transaction.requester_step
  simp [h, pure_eq_ok]

lemma recipient_step_absent (t : Transaction) (buf : Buffer)
    (h : pyTruthyS t.recipient_id = false) :
    t.recipient_step buf = .ok (buf.write_bytes (List.replicate 21 0)) := by
  unfold Transaction.recipient_step
  simp [h, pure_eq_ok]

lemma vendor_step_absent (t : Transaction) (buf : Buffer)
    (h : pyTruthyS t.vendor_field = false) :
    t.vendor_step buf = .ok (buf.write_bytes (List.replicate 64 0)) := by
  unfold Transaction.vendor_step
  simp [h, pure_eq_ok]

lemma pyBytes_of_le (L : Nat) (h : L ≤ 64) :
    pyBytes (64 - (L : Int)) = .ok (List.replicate (64 - L) 0) := by
  unfold pyBytes
  rw [if_neg (by omega)]
  congr 1
  congr 1
  omega

lemma pyBytes_of_gt (L : Nat) (h : 64 < L) :
    pyBytes (64 - (L : Int)) = .error .valueError := by
  unfold pyBytes
  rw [if_pos (by omega)]

lemma vendor_step_present (t : Transaction) (buf : Buffer) (v : String) (vf : List Nat)
    (hv : t.vendor_field = some v) (hv' : v ≠ "")
    (hdec : unhexlify v = .ok vf) (hlen : vf.length ≤ 64) :
    t.vendor_step buf = .ok (buf.write_bytes (vf ++ List.replicate (64 - vf.length) 0)) := by
  unfold Transaction.vendor_step
  simp [hv, pyTruthyS_some v hv', hdec, pyBytes_of_le vf.length hlen, ok_bind', error_bind',
        pure_eq_ok]

lemma vendor_step_long (t : Transaction) (buf : Buffer) (v : String) (vf : List Nat)
    (hv : t.vendor_field = some v) (hdec : unhexlify v = .ok vf) (hlen : 64 < vf.length) :
    t.vendor_step buf = .error .valueError := by
  have hv' : v ≠ "" := by
    intro h
    subst h
    have hemp : ([] : List Nat) = vf := by simpa [unhexlify, unhexBytes] using hdec
    rw [← hemp] at hlen
    simp at hlen
  unfold Transaction.vendor_step
  simp [hv, pyTruthyS_some v hv', hdec, pyBytes_of_gt vf.length hlen, ok_bind', error_bind',
        pure_eq_ok]

-- full characterizations of the `_to_bytes` pipeline
lemma to_bytes_pre_absent (hook : Buffer → Except TxError Buffer) (t : Transaction)
    (pk : List Nat) (f : Nat)
    (hpk : unhexlify t.sender_public_key = .ok pk)
    (hreq : pyTruthyS t.requester_public_key = false)
    (hrec : pyTruthyS t.recipient_id = false)
    (hvf : pyTruthyS t.vendor_field = false)
    (hfee : t.fee = some f) :
    t.to_bytes_pre hook = hook ⟨[t.type % 256] ++ toLE t.timestamp 4 ++ pk ++
      List.replicate 21 0 ++ List.replicate 64 0 ++ toLE t.amount 8 ++ toLE f 8⟩ := by
  unfold Transaction.to_bytes_pre
  simp [hpk, requester_step_absent t _ hreq, recipient_step_absent t _ hrec,
        vendor_step_absent t _ hvf, hfee, ok_bind, ok_bind', error_bind', pure_eq_ok,
        Buffer.write_byte, Buffer.write_int, Buffer.write_bytes, Buffer.write_long,
        List.append_assoc]

lemma to_bytes_pre_vendor (hook : Buffer → Except TxError Buffer) (t : Transaction)
    (pk : List Nat) (f : Nat) (v : String) (vf : List Nat)
    (hpk : unhexlify t.sender_public_key = .ok pk)
    (hreq : pyTruthyS t.requester_public_key = false)
    (hrec : pyTruthyS t.recipient_id = false)
    (hv : t.vendor_field = some v) (hv' : v ≠ "")
    (hdec : unhexlify v = .ok vf) (hlen : vf.length ≤ 64)
    (hfee : t.fee = some f) :
    t.to_bytes_pre hook = hook ⟨[t.type % 256] ++ toLE t.timestamp 4 ++ pk ++
      List.replicate 21 0 ++ (vf ++ List.replicate (64 - vf.length) 0) ++
      toLE t.amount 8 ++ toLE f 8⟩ := by
  unfold Transaction.to_bytes_pre
  simp [hpk, requester_step_absent t _ hreq, recipient_step_absent t _ hrec,
        vendor_step_present t _ v vf hv hv' hdec hlen, hfee, ok_bind, ok_bind', error_bind',
        pure_eq_ok, Buffer.write_byte, Buffer.write_int, Buffer.write_bytes, Buffer.write_long,
        List.append_assoc]

lemma to_bytes_pre_vendor_long (hook : Buffer → Except TxError Buffer) (t : Transaction)
    (pk : List Nat) (v : String) (vf : List Nat)
    (hpk : unhexlify t.sender_public_key = .ok pk)
    (hreq : pyTruthyS t.requester_public_key = false)
    (hrec : pyTruthyS t.recipient_id = false)
    (hv : t.vendor_field = some v)
    (hdec : unhexlify v = .ok vf) (hlen : 64 < vf.length) :
    t.to_bytes_pre hook = .error .valueError := by
  unfold Transaction.to_bytes_pre
  simp [hpk, requester_step_absent t _ hreq, recipient_step_absent t _ hrec,
        vendor_step_long t _ v vf hv hdec hlen, ok_bind, ok_bind', error_bind', error_bind,
        pure_eq_ok]

lemma to_bytes_vendor_long (hook : Buffer → Except TxError Buffer) (t : Transaction)
    (pk : List Nat) (v : String) (vf : List Nat) (sk ssk : Bool)
    (hpk : unhexlify t.sender_public_key = .ok pk)
    (hreq : pyTruthyS t.requester_public_key = false)
    (hrec : pyTruthyS t.recipient_id = false)
    (hv : t.vendor_field = some v)
    (hdec : unhexlify v = .ok vf) (hlen : 64 < vf.length) :
    t.to_bytes hook sk ssk = .error .valueError := by
  unfold Transaction.to_bytes
  rw [to_bytes_pre_vendor_long hook t pk v vf hpk hreq hrec hv hdec hlen]
  rfl

lemma bind_error_of {α β : Type} (x : Except TxError α) (k : α → Except TxError β)
    (h : ∀ a, ∃ e, k a = Except.error e) : ∃ e, Bind.bind x k = Except.error e := by
  cases x with
  | error e => exact ⟨e, rfl⟩
  | ok a => exact h a

lemma to_bytes_pre_fee_none (hook : Buffer → Except TxError Buffer) (t : Transaction)
    (hfee : t.fee = none) : ∃ e, t.to_bytes_pre hook = Except.error e := by
  unfold Transaction.to_bytes_pre
  apply bind_error_of
  intro spk
  apply bind_error_of
  intro b1
  apply bind_error_of
  intro b2
  apply bind_error_of
  intro b3
  apply bind_error_of
  intro b4
  rw [hfee]
  exact ⟨.missingFee, rfl⟩

lemma to_bytes_fee_none (hook : Buffer → Except TxError Buffer) (t : Transaction)
    (hfee : t.fee = none) (sk ssk : Bool) (bs : List Nat) :
    t.to_bytes hook sk ssk ≠ .ok bs := by
  obtain ⟨e, he⟩ := to_bytes_pre_fee_none hook t hfee
  unfold Transaction.to_bytes
  simp [he, error_bind, error_bind']

lemma to_bytes_pre_absent_fee_none (hook : Buffer → Except TxError Buffer) (t : Transaction)
    (pk : List Nat)
    (hpk : unhexlify t.sender_public_key = .ok pk)
    (hreq : pyTruthyS t.requester_public_key = false)
    (hrec : pyTruthyS t.recipient_id = false)
    (hvf : pyTruthyS t.vendor_field = false)
    (hfee : t.fee = none) :
    t.to_bytes_pre hook = .error .missingFee := by
  unfold Transaction.to_bytes_pre
  simp [hpk, requester_step_absent t _ hreq, recipient_step_absent t _ hrec,
        vendor_step_absent t _ hvf, hfee, ok_bind, ok_bind', error_bind', pure_eq_ok,
        Buffer.write_byte, Buffer.write_int, Buffer.write_bytes, Buffer.write_long]

lemma to_bytes_absent_fee_none (hook : Buffer → Except TxError Buffer) (t : Transaction)
    (pk : List Nat) (sk ssk : Bool)
    (hpk : unhexlify t.sender_public_key = .ok pk)
    (hreq : pyTruthyS t.requester_public_key = false)
    (hrec : pyTruthyS t.recipient_id = false)
    (hvf : pyTruthyS t.vendor_field = false)
    (hfee : t.fee = none) :
    t.to_bytes hook sk ssk = .error .missingFee := by
  unfold Transaction.to_bytes
  rw [to_bytes_pre_absent_fee_none hook t pk hpk hreq hrec hvf hfee]
  rfl

/-!
Helper lemmas shared by the claim theorems, and the claim theorems
themselves with their witnesses and counterexamples.
-/

lemma map_map_except {ε α β γ : Type} (x : Except ε α) (f : α → β) (g : β → γ) :
    (x.map f).map g = x.map (fun a => g (f a)) := by cases x <;> rfl

lemma toLE_length (n w : Nat) : (toLE n w).length = w := by
  induction w generalizing n with
  | zero => rfl
  | succ w ih => simp [toLE, ih]

lemma handle_signature_first_off (t : Transaction) (buf : Buffer) (ssk : Bool)
    (h1 : pyTruthyS t.signature = false) :
    t.handle_signature buf false ssk = t.handle_signature buf true ssk := by
  unfold Transaction.handle_signature
  simp [h1]

lemma to_bytes_first_off (hook : Buffer → Except TxError Buffer) (t : Transaction) (ssk : Bool)
    (h1 : pyTruthyS t.signature = false) :
    t.to_bytes hook false ssk = t.to_bytes hook true ssk := by
  unfold Transaction.to_bytes
  cases hpre : t.to_bytes_pre hook with
  | error e => rfl
  | ok buf => simp [ok_bind', handle_signature_first_off t buf ssk h1]

/-- Sanity check of the modelled SHA-256 primitive against the FIPS 180-4
test vector for the empty message. -/
theorem sha256_empty_vector :
    hexlify (sha256 []) = "e3b0c44298fc1c149afbf4c8996fb92427ae41e4649b934ca495991b7852b855" := by
  decide

/-- Sanity check of the modelled SHA-256 primitive against the FIPS 180-4
test vector for the message `abc`. -/
theorem sha256_abc_vector :
    hexlify (sha256 [97, 98, 99]) =
      "ba7816bf8f01cfea414140de5dae2223b00361a396177a9cb410ff61f20015ad" := by
  decide

/-- C1, counterexample: `_get_id` hashes `_to_bytes(False, False)`, whose
skip switches are false, so a stored signature IS included in the hashed
bytes.  On the scenario transaction with signature `aabb`: its
fully-unsigned bytes are the 139-byte `sampleUnsigned`, yet `get_id` is not
the digest of those bytes; and `get_id` changes after `sign`. -/
theorem claim_C1_counterexample :
    sampleSigned.to_bytes hookId true true = .ok sampleUnsigned ∧
    sampleSigned.get_id hookId ≠ .ok (hexlify (sha256 sampleUnsigned)) ∧
    ((sampleTx.sign (fun _ _ => "aabb") hookId "secret").bind (fun u => u.get_id hookId)) ≠
      sampleTx.get_id hookId := by
  decide

/-- C1, amended: for every transaction, `get_id()` computes the hex digest
of the hash of the canonical bytes with both skip switches false — i.e.
with any stored signature sections INCLUDED; consequently it agrees with
the digest of the fully-unsigned bytes, and is unaffected by a later
`sign`/`second_sign`, only while both signature fields are unset. -/
theorem claim_C1_amended (hook : Buffer → Except TxError Buffer) (t : Transaction) :
    t.get_id hook = (t.to_bytes hook false false).map (fun bs => hexlify (sha256 bs)) ∧
    (t.signature = none → t.sign_signature = none →
      t.get_id hook = (t.to_bytes hook true true).map (fun bs => hexlify (sha256 bs))) := by
  refine ⟨rfl, fun h1 h2 => ?_⟩
  unfold Transaction.get_id
  rw [to_bytes_of_unsigned hook t false false (by rw [h1]; rfl) (by rw [h2]; rfl)]

/-- C1, witness: the amended theorem applied to the unsigned scenario
transaction. -/
theorem claim_C1_witness :
    sampleTx.get_id hookId =
      (sampleTx.to_bytes hookId true true).map (fun bs => hexlify (sha256 bs)) :=
  (claim_C1_amended hookId sampleTx).2 rfl rfl

/-- C2, counterexample: on the doubly-signed scenario transaction,
`second_verify` does not pass the fully-unsigned hash to the verify
primitive; it passes the hash of the bytes extended with both stored
signature sections (`aabb` then `ccdd`). -/
theorem claim_C2_counterexample :
    sampleDoubly.second_verify_args hookId ≠
      (sampleDoubly.get_hash hookId true true).map
        (fun h => (sampleDoubly.sender_public_key, h, sampleDoubly.sign_signature)) ∧
    sampleDoubly.second_verify_args hookId =
      .ok (spkHex, sha256 (sampleUnsigned ++ [170, 187, 204, 221]), some "ccdd") := by
  decide

/-- C2, amended: for every transaction, `second_verify()` delegates to the
external verify primitive with `senderPublicKey`, the hash computed with
both skip switches false, and the stored `secondSignature`; when both
signatures are stored and hex-decode, that hash is the hash of the
fully-unsigned bytes followed by the first-signature bytes and the
second-signature bytes — not the fully-unsigned hash. -/
theorem claim_C2_amended (hook : Buffer → Except TxError Buffer) (t : Transaction) :
    t.second_verify_args hook =
      (t.get_hash hook false false).map (fun h => (t.sender_public_key, h, t.sign_signature)) ∧
    (∀ s ss bs bss, t.signature = some s → s ≠ "" → t.sign_signature = some ss → ss ≠ "" →
      unhexlify s = .ok bs → unhexlify ss = .ok bss →
      t.get_hash hook false false =
        (t.to_bytes hook true true).map (fun u => sha256 (u ++ bs ++ bss))) := by
  refine ⟨rfl, fun s ss bs bss hs hs' hss hss' hdec hdecs => ?_⟩
  unfold Transaction.get_hash
  rw [to_bytes_false_false_both hook t s ss bs bss hs hs' hdec hss hss' hdecs, map_map_except]

/-- C2, witness: the amended theorem applied to the doubly-signed scenario
transaction. -/
theorem claim_C2_witness :
    sampleDoubly.get_hash hookId false false =
      (sampleDoubly.to_bytes hookId true true).map
        (fun u => sha256 (u ++ [170, 187] ++ [204, 221])) :=
  (claim_C2_amended hookId sampleDoubly).2 "aabb" "ccdd" [170, 187] [204, 221] rfl (by decide)
    rfl (by decide) (by decide) (by decide)

/-- C3, evaluation at the failing input: on the scenario transaction signed
with `aabb`, `verify` passes the verify primitive the hash of
`_to_bytes(False, True)` — the unsigned bytes extended with the stored
signature — which differs from the hash of the fully-unsigned bytes that
`_sign` signed (third conjunct records the hash `_sign` actually signs);
and `verify`, having no return statement, evaluates to Python `None`
rather than the primitive's boolean. -/
theorem claim_C3_code_bug :
    sampleSigned.verify_args hookId =
      .ok (spkHex, sha256 (sampleUnsigned ++ [170, 187]), some "aabb") ∧
    sha256 (sampleUnsigned ++ [170, 187]) ≠ sha256 sampleUnsigned ∧
    sampleTx.sign (fun _ h => hexlify h) hookId "secret" =
      .ok { sampleTx with signature := some (hexlify (sha256 sampleUnsigned)) } ∧
    sampleSigned.verify (fun _ _ _ => true) hookId = .ok none := by
  decide

/-- C4, counterexample: encoding the unsigned scenario transaction with the
include-signature switch on (`skip_signature=False`) raises no error: it
succeeds and silently produces exactly the unsigned bytes. -/
theorem claim_C4_counterexample :
    sampleTx.signature = none ∧
    sampleTx.to_bytes hookId false false = .ok sampleUnsigned := by
  decide

/-- C4, amended: for every transaction whose signature field is unset,
encoding with `skip_signature=False` silently omits the signature section —
the output equals the `skip_signature=True` encoding (no error, no
placeholder padding). -/
theorem claim_C4_amended (hook : Buffer → Except TxError Buffer) (t : Transaction) (ssk : Bool)
    (h1 : t.signature = none) :
    t.to_bytes hook false ssk = t.to_bytes hook true ssk :=
  to_bytes_first_off hook t ssk (by rw [h1]; rfl)

/-- C4, witness: the amended theorem applied to the unsigned scenario
transaction. -/
theorem claim_C4_witness :
    sampleTx.to_bytes hookId false false = sampleTx.to_bytes hookId true false :=
  claim_C4_amended hookId sampleTx false rfl

/-- C5, counterexample: a transaction whose fee is unset but whose vendor
field is malformed hex fails with the hex decode error, not
`MissingFeeError` — the vendor field is encoded before the fee is
written. -/
theorem claim_C5_counterexample :
    sampleFeeNoneBadVendor.fee = none ∧
    sampleFeeNoneBadVendor.to_bytes hookId true true ≠ .error .missingFee ∧
    sampleFeeNoneBadVendor.to_bytes hookId true true = .error .malformedHex := by
  decide

/-- C5, amended: for every transaction whose fee field is unset, encoding
produces no output bytes (it never returns a byte sequence), and — provided
the fields encoded before the fee are well-formed (sender key decodes,
requester/recipient/vendor absent) — the error raised is
`MissingFeeError`. -/
theorem claim_C5_amended (hook : Buffer → Except TxError Buffer) (t : Transaction)
    (sk ssk : Bool) (hfee : t.fee = none) :
    (∀ bs, t.to_bytes hook sk ssk ≠ .ok bs) ∧
    (∀ pk, unhexlify t.sender_public_key = .ok pk →
      pyTruthyS t.requester_public_key = false →
      pyTruthyS t.recipient_id = false →
      pyTruthyS t.vendor_field = false →
      t.to_bytes hook sk ssk = .error .missingFee) :=
  ⟨fun bs => to_bytes_fee_none hook t hfee sk ssk bs,
   fun pk hpk hreq hrec hvf => to_bytes_absent_fee_none hook t pk sk ssk hpk hreq hrec hvf hfee⟩

/-- C5, witness: the amended theorem applied to the scenario transaction
with its fee unset. -/
theorem claim_C5_witness :
    sampleFeeNone.to_bytes hookId true true = .error .missingFee :=
  (claim_C5_amended hookId sampleFeeNone true true rfl).2 (3 :: List.replicate 32 0)
    (by decide) rfl rfl rfl

/-- C6: for every transaction (well-formed sender key, no requester key,
recipient absent), the buffer handed to the type extension point — and
hence the encoding — contains a recipient section of exactly 21 zero bytes;
the vendor-field section is exactly 64 zero bytes when `vendorField` is
absent, and the `L` decoded raw bytes followed by exactly `64 − L` zero
bytes when present with `0 ≤ L ≤ 64`; a `vendorField` whose decoded length
exceeds 64 makes the encoding fail (`bytes(64 − L)` with `L > 64` raises
`ValueError`). -/
theorem claim_C6 (hook : Buffer → Except TxError Buffer) (t : Transaction) (pk : List Nat)
    (hpk : unhexlify t.sender_public_key = .ok pk)
    (hreq : pyTruthyS t.requester_public_key = false)
    (hrec : pyTruthyS t.recipient_id = false) :
    (∀ f, t.fee = some f → pyTruthyS t.vendor_field = false →
      t.to_bytes_pre hook = hook ⟨[t.type % 256] ++ toLE t.timestamp 4 ++ pk ++
        List.replicate 21 0 ++ List.replicate 64 0 ++ toLE t.amount 8 ++ toLE f 8⟩) ∧
    (∀ f v vf, t.fee = some f → t.vendor_field = some v → v ≠ "" →
      unhexlify v = .ok vf → vf.length ≤ 64 →
      t.to_bytes_pre hook = hook ⟨[t.type % 256] ++ toLE t.timestamp 4 ++ pk ++
        List.replicate 21 0 ++ (vf ++ List.replicate (64 - vf.length) 0) ++
        toLE t.amount 8 ++ toLE f 8⟩) ∧
    (∀ v vf sk ssk, t.vendor_field = some v → unhexlify v = .ok vf → 64 < vf.length →
      t.to_bytes hook sk ssk = .error .valueError) :=
  ⟨fun f hfee hvf => to_bytes_pre_absent hook t pk f hpk hreq hrec hvf hfee,
   fun f v vf hfee hv hv' hdec hlen =>
     to_bytes_pre_vendor hook t pk f v vf hpk hreq hrec hv hv' hdec hlen hfee,
   fun v vf sk ssk hv hdec hlen =>
     to_bytes_vendor_long hook t pk v vf sk ssk hpk hreq hrec hv hdec hlen⟩

/-- C6, witness: the theorem applied to the scenario transaction with the
3-byte vendor field `aabbcc` (padded with 61 zero bytes) and to one with a
65-byte vendor field (rejected). -/
theorem claim_C6_witness :
    sampleVendor.to_bytes_pre hookId =
      .ok ⟨[0] ++ toLE 10000000 4 ++ (3 :: List.replicate 32 0) ++ List.replicate 21 0 ++
        ([170, 187, 204] ++ List.replicate 61 0) ++ toLE 100000000 8 ++ toLE 10000000 8⟩ ∧
    sampleVendorLong.to_bytes hookId true true = .error .valueError := by
  constructor
  · exact (claim_C6 hookId sampleVendor (3 :: List.replicate 32 0) (by decide) rfl rfl).2.1
      10000000 "aabbcc" [170, 187, 204] rfl rfl (by decide) (by decide) (by decide)
  · exact (claim_C6 hookId sampleVendorLong (3 :: List.replicate 32 0) (by decide) rfl rfl).2.2
      (String.mk (List.replicate 130 'a')) (List.replicate 65 170) true true rfl (by decide)
      (by decide)

/-- C7: for every transaction with type 0, timestamp 10000000, a 33-byte
sender public key, amount 100000000, fee 10000000, no requester key, no
recipient, no vendor field and no signatures, encoded with the
zero-asset-bytes extension hook: the unsigned encoding is exactly
type(1) ++ timestamp(4) ++ key(33) ++ recipient placeholder(21) ++
vendor padding(64) ++ amount(8) ++ fee(8), its length is 139, and
`get_id()` is the hex SHA-256 of those 139 bytes. -/
theorem claim_C7 (t : Transaction) (pk : List Nat)
    (h1 : t.type = 0) (h2 : t.timestamp = 10000000)
    (h3 : unhexlify t.sender_public_key = .ok pk) (h4 : pk.length = 33)
    (h5 : t.amount = 100000000) (h6 : t.fee = some 10000000)
    (h7 : t.requester_public_key = none) (h8 : t.recipient_id = none)
    (h9 : t.vendor_field = none) (h10 : t.signature = none) (h11 : t.sign_signature = none) :
    t.to_bytes hookId true true = .ok ([0] ++ toLE 10000000 4 ++ pk ++ List.replicate 21 0 ++
      List.replicate 64 0 ++ toLE 100000000 8 ++ toLE 10000000 8) ∧
    (∀ bs, t.to_bytes hookId true true = .ok bs → bs.length = 139) ∧
    t.get_id hookId = .ok (hexlify (sha256 ([0] ++ toLE 10000000 4 ++ pk ++
      List.replicate 21 0 ++ List.replicate 64 0 ++ toLE 100000000 8 ++ toLE 10000000 8))) := by
  have hpre := to_bytes_pre_absent hookId t pk 10000000 h3 (by rw [h7]; rfl) (by rw [h8]; rfl)
    (by rw [h9]; rfl) h6
  have hmain : t.to_bytes hookId true true = .ok ([0] ++ toLE 10000000 4 ++ pk ++
      List.replicate 21 0 ++ List.replicate 64 0 ++ toLE 100000000 8 ++ toLE 10000000 8) := by
    unfold Transaction.to_bytes
    rw [hpre]
    simp [hookId, ok_bind', handle_signature_true_true, pure_eq_ok, Buffer.to_bytes, h1, h2, h5]
  refine ⟨hmain, fun bs hbs => ?_, ?_⟩
  · rw [hmain] at hbs
    injection hbs with hh
    subst hh
    simp [toLE_length, h4]
  · unfold Transaction.get_id
    rw [to_bytes_of_unsigned hookId t false false (by rw [h10]; rfl) (by rw [h11]; rfl), hmain]
    rfl

/-- C7, witness: the theorem applied to the concrete scenario
transaction. -/
theorem claim_C7_witness :
    sampleTx.to_bytes hookId true true = .ok ([0] ++ toLE 10000000 4 ++
      (3 :: List.replicate 32 0) ++ List.replicate 21 0 ++ List.replicate 64 0 ++
      toLE 100000000 8 ++ toLE 10000000 8) ∧
    sampleTx.get_id hookId = .ok (hexlify (sha256 ([0] ++ toLE 10000000 4 ++
      (3 :: List.replicate 32 0) ++ List.replicate 21 0 ++ List.replicate 64 0 ++
      toLE 100000000 8 ++ toLE 10000000 8))) := by
  have h := claim_C7 sampleTx (3 :: List.replicate 32 0) rfl rfl (by decide) (by decide)
    rfl rfl rfl rfl rfl rfl rfl
  exact ⟨h.1, h.2.2⟩

/-- C8: for every transaction, `second_sign(secret)` computes its hash over
the canonical bytes with skip switches `(False, True)` — bytes that include
the stored first signature (second conjunct) and exclude the second — and
stores the result in the `secondSignature` field (`_sign_signature`); and
when the first signature is unset the hashed bytes silently equal the
fully-unsigned bytes rather than failing (third conjunct). -/
theorem claim_C8 (sign_prim : String → List Nat → String)
    (hook : Buffer → Except TxError Buffer) (t : Transaction) (secret : String) :
    t.second_sign sign_prim hook secret =
      (t.get_hash hook false true).map
        (fun h => { t with sign_signature := some (sign_prim secret h) }) ∧
    (∀ s bs, t.signature = some s → s ≠ "" → unhexlify s = .ok bs →
      t.get_hash hook false true = (t.to_bytes hook true true).map (fun u => sha256 (u ++ bs))) ∧
    (t.signature = none →
      t.get_hash hook false true = (t.to_bytes hook true true).map sha256) := by
  refine ⟨rfl, fun s bs hs hs' hdec => ?_, fun h1 => ?_⟩
  · unfold Transaction.get_hash
    rw [to_bytes_false_true_sig hook t s bs hs hs' hdec, map_map_except]
  · unfold Transaction.get_hash
    rw [to_bytes_first_off hook t true (by rw [h1]; rfl)]

/-- C8, witness: the bytes-including-first-signature conjunct applied to
the signed scenario transaction. -/
theorem claim_C8_witness :
    sampleSigned.get_hash hookId false true =
      (sampleSigned.to_bytes hookId true true).map (fun u => sha256 (u ++ [170, 187])) :=
  (claim_C8 (fun _ _ => "") hookId sampleSigned "secret").2.1 "aabb" [170, 187] rfl
    (by decide) (by decide)

/-- C9, counterexample: the keys of `to_dict()` are not the claimed list —
the source writes the literal keys `"venderField"` (not `"vendorField"`)
and `"signSignature"` (not `"secondSignature"`). -/
theorem claim_C9_counterexample :
    (sampleTx.to_dict).map Prod.fst ≠
      ["type", "amount", "fee", "asset", "id", "recipientId", "vendorField",
       "timestamp", "senderPublicKey", "signature", "secondSignature"] := by
  decide

/-- C9, amended: for every transaction, `to_dict()` returns a dictionary
whose keys are exactly `type, amount, fee, asset, id, recipientId,
venderField, timestamp, senderPublicKey, signature, signSignature` (in the
source's spelling), each mapped to the transaction's current value of the
corresponding field; it is a pure projection and mutates nothing. -/
theorem claim_C9_amended (t : Transaction) :
    (t.to_dict).map Prod.fst =
      ["type", "amount", "fee", "asset", "id", "recipientId", "venderField",
       "timestamp", "senderPublicKey", "signature", "signSignature"] ∧
    (t.to_dict).lookup "type" = some (.int t.type) ∧
    (t.to_dict).lookup "amount" = some (.int t.amount) ∧
    (t.to_dict).lookup "fee" = some (PyValue.ofOptNat t.fee) ∧
    (t.to_dict).lookup "asset" = some (.dict t.asset) ∧
    (t.to_dict).lookup "id" = some (PyValue.ofOptStr t.id) ∧
    (t.to_dict).lookup "recipientId" = some (PyValue.ofOptStr t.recipient_id) ∧
    (t.to_dict).lookup "venderField" = some (PyValue.ofOptStr t.vendor_field) ∧
    (t.to_dict).lookup "timestamp" = some (.int t.timestamp) ∧
    (t.to_dict).lookup "senderPublicKey" = some (.str t.sender_public_key) ∧
    (t.to_dict).lookup "signature" = some (PyValue.ofOptStr t.signature) ∧
    (t.to_dict).lookup "signSignature" = some (PyValue.ofOptStr t.sign_signature) :=
  ⟨rfl, rfl, rfl, rfl, rfl, rfl, rfl, rfl, rfl, rfl, rfl, rfl⟩

/-- C10: for every transaction with both signature fields unset, the
canonical byte sequence is identical for all four combinations of the
`skip_signature`/`skip_second_signature` switches; in particular the bytes
hashed by `get_id` (switches `(False, False)`), by `sign` (defaults
`(True, True)`), and the fully-unsigned encoding coincide. -/
theorem claim_C10 (hook : Buffer → Except TxError Buffer) (t : Transaction) (sk ssk : Bool)
    (h1 : t.signature = none) (h2 : t.sign_signature = none) :
    t.to_bytes hook sk ssk = t.to_bytes hook true true ∧
    t.get_hash hook sk ssk = t.get_hash hook true true ∧
    t.get_id hook = (t.to_bytes hook true true).map (fun bs => hexlify (sha256 bs)) := by
  have hb := to_bytes_of_unsigned hook t sk ssk (by rw [h1]; rfl) (by rw [h2]; rfl)
  refine ⟨hb, ?_, ?_⟩
  · unfold Transaction.get_hash
    rw [hb]
  · unfold Transaction.get_id
    rw [to_bytes_of_unsigned hook t false false (by rw [h1]; rfl) (by rw [h2]; rfl)]

/-- C10, witness: the theorem applied to the unsigned scenario
transaction. -/
theorem claim_C10_witness :
    sampleTx.to_bytes hookId false false = sampleTx.to_bytes hookId true true ∧
    sampleTx.get_hash hookId false false = sampleTx.get_hash hookId true true ∧
    sampleTx.get_id hookId =
      (sampleTx.to_bytes hookId true true).map (fun bs => hexlify (sha256 bs)) :=
  claim_C10 hookId sampleTx false false rfl rfl
